import Mathlib

/-
Verification of the cache / rate-limit core of the BeliX Discord bot
(src/utils/cache.js and src/utils/rateLimit.js), as a shallow embedding.

Modelling conventions:
- `Date.now()` is impure in JavaScript; every operation here takes the
  current time `now : Nat` (milliseconds) as an explicit parameter.
- JavaScript `Map` objects are modelled as association lists
  `List (String × α)` with first-occurrence lookup semantics.
- JavaScript values stored in the cache are modelled by `JsVal`, which
  distinguishes `null` (the sentinel `CacheManager.get` returns on a miss)
  and includes a value whose `JSON.stringify` throws (a circular object),
  needed to model serialization failure in `estimateMemoryUsage`.
- Thrown exceptions are modelled with `Except JsError`.
- JavaScript subtraction `now - t` on timestamps is modelled by truncated
  Nat subtraction; for the comparisons used in the source
  (`now - t > ttl` with `ttl : Nat`, and `now - t < window`) truncation
  at zero agrees with the JavaScript result for every `now` and `t`.
-/

/-- Errors a modelled JavaScript operation can throw. -/
inductive JsError where
  | typeError : JsError
  | referenceError : JsError
deriving DecidableEq, Repr

/-- JavaScript values stored in the cache. `circularObj` stands for an object
with a circular reference: `JSON.stringify` throws a TypeError on it. -/
inductive JsVal where
  | null : JsVal
  | num : Int → JsVal
  | str : String → JsVal
  | bool : Bool → JsVal
  | circularObj : JsVal
deriving DecidableEq, Repr

/-- Model of `JSON.stringify` restricted to the values of `JsVal`: ordinary
values serialize to a string, a circular object throws a TypeError. -/
def jsonStringify : JsVal → Except JsError String
  | JsVal.null => Except.ok "null"
  | JsVal.num n => Except.ok (toString n)
  | JsVal.str s => Except.ok ("\"" ++ s ++ "\"")
  | JsVal.bool b => Except.ok (toString b)
  | JsVal.circularObj => Except.error JsError.typeError

/-- Model of `Math.ceil(a / b)` for natural `a` and positive natural `b`. -/
def ceilDiv (a b : Nat) : Nat := (a + b - 1) / b

-- ============ Association-list model of a JavaScript Map ============

/-- Model of `Map.get`: the value at the first occurrence of a key. -/
def alGet {α : Type} (k : String) : List (String × α) → Option α
  | [] => none
  | (k', v) :: t => if k' = k then some v else alGet k t

/-- Model of `Map.set`: replace the first occurrence, or append. -/
def alSet {α : Type} (k : String) (v : α) : List (String × α) → List (String × α)
  | [] => [(k, v)]
  | (k', v') :: t => if k' = k then (k, v) :: t else (k', v') :: alSet k v t

/-- Model of `Map.delete` (the removal itself): drop every pair at the key. -/
def alDelete {α : Type} (k : String) (l : List (String × α)) : List (String × α) :=
  l.filter (fun p => p.1 ≠ k)

/-- Model of `Map.has`. -/
def alHas {α : Type} (k : String) (l : List (String × α)) : Bool :=
  (alGet k l).isSome

@[simp] theorem alGet_nil {α : Type} (k : String) : alGet (α := α) k [] = none := rfl

@[simp] theorem alGet_cons {α : Type} (k k' : String) (v : α) (t : List (String × α)) :
    alGet k ((k', v) :: t) = if k' = k then some v else alGet k t := rfl

@[simp] theorem alGet_alSet_self {α : Type} (k : String) (v : α) (l : List (String × α)) :
    alGet k (alSet k v l) = some v := by
  induction l with
  | nil => simp [alSet]
  | cons p t ih =>
    obtain ⟨k', v'⟩ := p
    by_cases h : k' = k
    · simp [alSet, h]
    · simp [alSet, h, ih]

@[simp] theorem alGet_alDelete_self {α : Type} (k : String) (l : List (String × α)) :
    alGet k (alDelete k l) = none := by
  induction l with
  | nil => simp [alDelete]
  | cons p t ih =>
    obtain ⟨k', v'⟩ := p
    by_cases h : k' = k
    · simpa [alDelete, h] using ih
    · simpa [alDelete, h] using ih

theorem alDelete_of_alGet_none {α : Type} (k : String) (l : List (String × α))
    (h : alGet k l = none) : alDelete k l = l := by
  induction l with
  | nil => simp [alDelete]
  | cons p t ih =>
    obtain ⟨k', v'⟩ := p
    by_cases hk : k' = k
    · simp [hk] at h
    · simp [alGet, hk] at h
      simp [alDelete, hk, List.filter] at ih ⊢
      exact ih h

theorem alGet_alSet_ne {α : Type} (k k₀ : String) (v : α) (l : List (String × α))
    (h : k₀ ≠ k) : alGet k₀ (alSet k v l) = alGet k₀ l := by
  have hne : k ≠ k₀ := Ne.symm h
  induction l with
  | nil => simp [alSet, alGet, hne]
  | cons p t ih =>
    obtain ⟨k', v'⟩ := p
    by_cases hk : k' = k
    · subst hk
      simp [alSet, alGet, hne]
    · simp [alSet, hk, alGet, ih]

-- ============ src/utils/cache.js ============

/-- Cached value with metadata (class `CacheEntry`, src/utils/cache.js).
The constructor sets `createdAt` and `lastAccessed` to `Date.now()`. -/
structure CacheEntry where
  value : JsVal
  createdAt : Nat
  ttl : Nat
  hits : Nat
  lastAccessed : Nat
deriving DecidableEq, Repr

/-- Constructor `new CacheEntry(value, ttl)` called at time `now`. -/
def CacheEntry.make (value : JsVal) (ttl : Nat) (now : Nat) : CacheEntry :=
  { value := value, createdAt := now, ttl := ttl, hits := 0, lastAccessed := now }

/-- Method `isExpired`: `Date.now() - this.createdAt > this.ttl`. -/
def CacheEntry.isExpired (e : CacheEntry) (now : Nat) : Bool :=
  now - e.createdAt > e.ttl

/-- Method `recordHit`: bump `hits`, refresh `lastAccessed`. -/
def CacheEntry.recordHit (e : CacheEntry) (now : Nat) : CacheEntry :=
  { e with hits := e.hits + 1, lastAccessed := now }

/-- Value of the object literal `CacheEntry.getStats` tries to build. -/
structure EntryStats where
  createdAt : Nat
  lastAccessed : Nat
  hits : Nat
  age : Nat
  ttl : Nat
deriving DecidableEq, Repr

/-- Identifiers bound at the top level of the module src/utils/cache.js
(its `require`d binding and every class / const it declares). Neither this
module scope nor the Node.js global scope binds an identifier `hits`. -/
def cacheModuleScope : List String :=
  ["logger", "CacheEntry", "CacheManager", "cache",
   "LeaderboardCacheHandler", "DailyQuestionCacheHandler",
   "TerminologyCacheHandler", "leaderboardCache", "dailyQuestionCache",
   "terminologyCache", "module", "require", "exports"]

/-- Method `CacheEntry.getStats`. Its body writes the shorthand property
`hits,` — the bare identifier `hits`, not `this.hits`. The method has no
parameters or locals, so the identifier resolves through the module scope
(and then the global scope, which has no `hits` either); an unbound
identifier read throws a ReferenceError. -/
def CacheEntry.getStatsJs (e : CacheEntry) (now : Nat) : Except JsError EntryStats :=
  if cacheModuleScope.contains "hits" then
    Except.ok
      { createdAt := e.createdAt, lastAccessed := e.lastAccessed,
        hits := 0, age := now - e.createdAt, ttl := e.ttl }
  else
    Except.error JsError.referenceError

/-- Global counters of the `CacheManager` (`this.metrics`). -/
structure CacheMetrics where
  hits : Nat
  misses : Nat
  sets : Nat
  deletes : Nat
deriving DecidableEq, Repr

/-- Class `CacheManager`: the key → `CacheEntry` map plus metrics. -/
structure CacheManager where
  store : List (String × CacheEntry)
  metrics : CacheMetrics
deriving DecidableEq, Repr

namespace CacheManager

/-- Constructor state: empty store, zeroed metrics. -/
def init : CacheManager :=
  { store := [], metrics := { hits := 0, misses := 0, sets := 0, deletes := 0 } }

/-- Method `set(key, value, ttl)`: store a fresh entry, bump `sets`.
(The try/catch in the source cannot fire: `Map.set` does not throw.) -/
def set (c : CacheManager) (key : String) (value : JsVal) (ttl : Nat) (now : Nat) :
    CacheManager :=
  { store := alSet key (CacheEntry.make value ttl now) c.store,
    metrics := { c.metrics with sets := c.metrics.sets + 1 } }

/-- Method `get(key)`: returns the stored value, or `null` when the key is
absent or the entry expired (the stale entry is deleted and a miss counted).
On a hit the entry's `hits`/`lastAccessed` are updated and `hits` counted. -/
def get (c : CacheManager) (key : String) (now : Nat) : CacheManager × JsVal :=
  match alGet key c.store with
  | none =>
      ({ c with metrics := { c.metrics with misses := c.metrics.misses + 1 } },
       JsVal.null)
  | some entry =>
      if entry.isExpired now then
        ({ store := alDelete key c.store,
           metrics := { c.metrics with misses := c.metrics.misses + 1 } },
         JsVal.null)
      else
        ({ store := alSet key (entry.recordHit now) c.store,
           metrics := { c.metrics with hits := c.metrics.hits + 1 } },
         entry.value)

/-- Method `getOrSet(key, fetchFn, ttl)` (the spec's `getOrCompute`).
`fetchResult` is the outcome `fetchFn` produces if it is invoked; the
returned Bool records whether it was invoked. A non-null cached value is
returned directly; otherwise the fetch runs, and on success its value is
cached, while on failure the error is rethrown and `set` is never reached. -/
def getOrSet (c : CacheManager) (key : String) (fetchResult : Except JsError JsVal)
    (ttl : Nat) (now : Nat) : CacheManager × Except JsError JsVal × Bool :=
  let res := c.get key now
  if res.2 ≠ JsVal.null then
    (res.1, Except.ok res.2, false)
  else
    match fetchResult with
    | Except.ok v => ((res.1).set key v ttl now, Except.ok v, true)
    | Except.error e => (res.1, Except.error e, true)

/-- Method `delete(key)`: remember `has`, remove, bump `deletes` only when
an entry existed, return whether it did. No code path throws. -/
def delete (c : CacheManager) (key : String) : CacheManager × Bool :=
  let hadEntry := alHas key c.store
  let c' : CacheManager := { c with store := alDelete key c.store }
  if hadEntry then
    ({ c' with metrics := { c'.metrics with deletes := c'.metrics.deletes + 1 } }, true)
  else
    (c', false)

/-- Method `estimateMemoryUsage`: sums `JSON.stringify(entry.value).length * 2`
over all entries. The source has no try/catch here, so a serialization
failure propagates. The model returns the byte total (the source formats it
as a KB string, a detail irrelevant to the claims). -/
def estimateMemoryUsage (c : CacheManager) : Except JsError Nat :=
  c.store.foldl
    (fun acc p => do
      let bytes ← acc
      let s ← jsonStringify p.2.value
      pure (bytes + s.length * 2))
    (Except.ok 0)

/-- Snapshot returned by `CacheManager.getStats`. `hitRateBp` models the
`toFixed(2)` percentage as basis points (hundredths of a percent). -/
structure Stats where
  hits : Nat
  misses : Nat
  sets : Nat
  deletes : Nat
  hitRateBp : Nat
  entriesStored : Nat
  estimatedMemory : Nat
deriving DecidableEq, Repr

/-- Method `getStats`: metrics snapshot plus the memory estimate. It calls
`estimateMemoryUsage` with no try/catch anywhere on the path, so an error
from serialization propagates to the caller of `getStats`. -/
def getStats (c : CacheManager) : Except JsError Stats := do
  let est ← c.estimateMemoryUsage
  let accesses := c.metrics.hits + c.metrics.misses
  pure
    { hits := c.metrics.hits, misses := c.metrics.misses,
      sets := c.metrics.sets, deletes := c.metrics.deletes,
      hitRateBp := if accesses > 0 then c.metrics.hits * 10000 / accesses else 0,
      entriesStored := c.store.length,
      estimatedMemory := est }

end CacheManager

-- ============ src/utils/rateLimit.js ============

/-- Per (user, command) record of the `CommandCooldownManager`:
`{ expiresAt, violations }`. -/
structure CooldownData where
  expiresAt : Nat
  violations : Nat
deriving DecidableEq, Repr

/-- Class `CommandCooldownManager`: userId → (commandName → CooldownData).
The constructor fixes `baseEscalation = 1000`. -/
structure CommandCooldownManager where
  cooldowns : List (String × List (String × CooldownData))
deriving DecidableEq, Repr

/-- Result object of `checkCooldown`: `{ allowed, retryAfter?, violations? }`. -/
structure CooldownResult where
  allowed : Bool
  retryAfter : Option Nat
  violations : Option Nat
deriving DecidableEq, Repr

namespace CommandCooldownManager

/-- The constructor's `baseEscalation` (1 second per violation). -/
def baseEscalation : Nat := 1000

/-- Constructor state: no cooldowns tracked. -/
def init : CommandCooldownManager := { cooldowns := [] }

/-- Method `checkCooldown(userId, commandName, cooldownMs)` at time `now`.
An empty per-user map is installed if missing. If the command has a record
that has not expired (`now < expiresAt`), the record's `violations` is
incremented and the call denied with `retryAfter = ceil((expiresAt-now)/1000)`.
Otherwise (no record, or naturally elapsed) the call is allowed and a new
record is installed with `expiresAt = now + cooldownMs + priorViolations *
baseEscalation` and `violations = 0` (`priorViolations` read from the old
record via `?.violations || 0`). -/
def checkCooldown (m : CommandCooldownManager) (userId commandName : String)
    (cooldownMs : Nat) (now : Nat) : CommandCooldownManager × CooldownResult :=
  let userCooldowns :=
    match alGet userId m.cooldowns with
    | some uc => uc
    | none => []
  match alGet commandName userCooldowns with
  | some cooldownData =>
      if now ≥ cooldownData.expiresAt then
        -- Cooldown naturally elapsed: fall through to the reset branch.
        let violations := cooldownData.violations
        let escalatedCooldown := cooldownMs + violations * baseEscalation
        let userCooldowns' :=
          alSet commandName
            { expiresAt := now + escalatedCooldown, violations := 0 } userCooldowns
        ({ cooldowns := alSet userId userCooldowns' m.cooldowns },
         { allowed := true, retryAfter := none, violations := none })
      else
        let retryAfter := ceilDiv (cooldownData.expiresAt - now) 1000
        let v := cooldownData.violations + 1
        let userCooldowns' :=
          alSet commandName { cooldownData with violations := v } userCooldowns
        ({ cooldowns := alSet userId userCooldowns' m.cooldowns },
         { allowed := false, retryAfter := some retryAfter, violations := some v })
  | none =>
      let escalatedCooldown := cooldownMs + 0 * baseEscalation
      let userCooldowns' :=
        alSet commandName
          { expiresAt := now + escalatedCooldown, violations := 0 } userCooldowns
      ({ cooldowns := alSet userId userCooldowns' m.cooldowns },
       { allowed := true, retryAfter := none, violations := none })

end CommandCooldownManager

/-- Class `AntiSpamManager`: userId → list of admitted message timestamps.
The constructor fixes the thresholds used below. -/
structure AntiSpamManager where
  messageHistory : List (String × List Nat)
deriving DecidableEq, Repr

/-- Result object of `checkSpam`: `{ isSpamming, reason?, muteDuration? }`. -/
structure SpamResult where
  isSpamming : Bool
  muteDuration : Option Nat
deriving DecidableEq, Repr

namespace AntiSpamManager

/-- Constructor threshold `messageThreshold` (allow 5 messages). -/
def messageThreshold : Nat := 5

/-- Constructor threshold `timeWindow` (per 5 seconds). -/
def timeWindow : Nat := 5000

/-- Constructor threshold `autoMute` (suggested 30 second mute). -/
def autoMute : Nat := 30000

/-- Constructor state: no history tracked. -/
def init : AntiSpamManager := { messageHistory := [] }

/-- Method `checkSpam(userId)` at time `now`. The user's history (installed
empty if missing) is filtered to timestamps within the window; if the
filtered count reaches the threshold the check is flagged and the filtered
list is NOT persisted (nor is `now` appended) — the stored history stays as
it was; otherwise `now` is appended to the filtered list and persisted. -/
def checkSpam (m : AntiSpamManager) (userId : String) (now : Nat) :
    AntiSpamManager × SpamResult :=
  let history :=
    match alGet userId m.messageHistory with
    | some h => h
    | none => []
  let filteredHistory := history.filter (fun t => now - t < timeWindow)
  if filteredHistory.length ≥ messageThreshold then
    ({ messageHistory := alSet userId history m.messageHistory },
     { isSpamming := true, muteDuration := some autoMute })
  else
    ({ messageHistory := alSet userId (filteredHistory ++ [now]) m.messageHistory },
     { isSpamming := false, muteDuration := none })

end AntiSpamManager

/-- Class `LeaderboardFarmingPrevention`: userId → last points-update time.
The constructor fixes `minIntervalBetweenUpdates = 30000`. -/
structure LeaderboardFarmingPrevention where
  lastPointsUpdate : List (String × Nat)
deriving DecidableEq, Repr

/-- Result object of `canPerformAction`: `{ allowed, retryAfter? }`. -/
structure FarmingResult where
  allowed : Bool
  retryAfter : Option Nat
deriving DecidableEq, Repr

namespace LeaderboardFarmingPrevention

/-- The constructor's `minIntervalBetweenUpdates` (30 seconds). -/
def minInterval : Nat := 30000

/-- Constructor state: no updates tracked. -/
def init : LeaderboardFarmingPrevention := { lastPointsUpdate := [] }

/-- Method `canPerformAction(userId)` at time `now`. The source tests
`if (!lastUpdate)`: a missing record — or a recorded timestamp 0, which is
falsy in JavaScript (`Date.now()` is never 0 in practice) — allows and
records `now`. Otherwise, if `now - lastUpdate < minInterval` the call is
denied with `retryAfter = ceil((minInterval - (now-lastUpdate))/1000)`;
else it is allowed and `now` overwrites the record. -/
def canPerformAction (p : LeaderboardFarmingPrevention) (userId : String)
    (now : Nat) : LeaderboardFarmingPrevention × FarmingResult :=
  match alGet userId p.lastPointsUpdate with
  | none =>
      ({ lastPointsUpdate := alSet userId now p.lastPointsUpdate },
       { allowed := true, retryAfter := none })
  | some lastUpdate =>
      if lastUpdate = 0 then
        ({ lastPointsUpdate := alSet userId now p.lastPointsUpdate },
         { allowed := true, retryAfter := none })
      else
        let timeSinceLastUpdate := now - lastUpdate
        if timeSinceLastUpdate < minInterval then
          (p, { allowed := false,
                retryAfter := some (ceilDiv (minInterval - timeSinceLastUpdate) 1000) })
        else
          ({ lastPointsUpdate := alSet userId now p.lastPointsUpdate },
           { allowed := true, retryAfter := none })

end LeaderboardFarmingPrevention

-- ============ Theorems ============

/-- C4 counterexample: the claim quantifies over every compute function, but
for a compute function that returns null, two getOrSet calls within the ttl
window (here ttl = 1000, calls at times 0 and 1, fresh cache) each invoke
the function: it runs twice, not exactly once. -/
theorem getOrCompute_dedup_cex :
    (CacheManager.init.getOrSet "k" (Except.ok JsVal.null) 1000 0).2.2 = true ∧
    ((CacheManager.init.getOrSet "k" (Except.ok JsVal.null) 1000 0).1.getOrSet
        "k" (Except.ok JsVal.null) 1000 1).2.2 = true := by
  refine ⟨by decide, by decide⟩

/-- C4 amended: for every key, every ttl, and every compute function whose
result is a non-null value v, calling getOrSet twice within the ttl window
(first call at n1 on a cache with no entry for the key, second at n2 with
n2 - n1 ≤ ttl) invokes the function exactly once: the first call invokes it
and returns v, the second call does not invoke its compute function
(whatever result r it would produce) and serves v from the cache. -/
theorem getOrCompute_dedup (c : CacheManager) (k : String) (v : JsVal)
    (r : Except JsError JsVal) (ttl n1 n2 : Nat) (hv : v ≠ JsVal.null)
    (habsent : alGet k c.store = none) (hwin : n2 - n1 ≤ ttl) :
    (c.getOrSet k (Except.ok v) ttl n1).2.1 = Except.ok v ∧
    (c.getOrSet k (Except.ok v) ttl n1).2.2 = true ∧
    ((c.getOrSet k (Except.ok v) ttl n1).1.getOrSet k r ttl n2).2.1
      = Except.ok v ∧
    ((c.getOrSet k (Except.ok v) ttl n1).1.getOrSet k r ttl n2).2.2 = false := by
  have hmiss : (c.get k n1) =
      ({ c with metrics := { c.metrics with misses := c.metrics.misses + 1 } },
       JsVal.null) := by
    simp [CacheManager.get, habsent]
  have hfirst : c.getOrSet k (Except.ok v) ttl n1 =
      (CacheManager.set
        { c with metrics := { c.metrics with misses := c.metrics.misses + 1 } }
        k v ttl n1, Except.ok v, true) := by
    simp [CacheManager.getOrSet, hmiss]
  have hlive : (CacheEntry.make v ttl n1).isExpired n2 = false := by
    simp [CacheEntry.make, CacheEntry.isExpired]
    omega
  have hval : (CacheEntry.make v ttl n1).value = v := rfl
  have hsecond : ∀ c' : CacheManager, (CacheManager.set c' k v ttl n1).get k n2 =
      ({ store :=
           alSet k ((CacheEntry.make v ttl n1).recordHit n2)
             (CacheManager.set c' k v ttl n1).store,
         metrics :=
           { (CacheManager.set c' k v ttl n1).metrics with
             hits := (CacheManager.set c' k v ttl n1).metrics.hits + 1 } }, v) := by
    intro c'
    simp [CacheManager.get, CacheManager.set, alGet_alSet_self, hlive, hval]
  have hsec : ((CacheManager.set
      { c with metrics := { c.metrics with misses := c.metrics.misses + 1 } }
      k v ttl n1).getOrSet k r ttl n2).2 = (Except.ok v, false) := by
    simp [CacheManager.getOrSet, hsecond, hv]
  refine ⟨by simp [hfirst], by simp [hfirst], ?_, ?_⟩ <;>
    rw [hfirst] <;> simp [hsec]


/-- C4 witness: the amended dedup at a concrete input (value 7, ttl 1000,
calls at times 0 and 500; the second call's compute function would throw,
yet is never consulted). -/
theorem getOrCompute_dedup_witness :
    (JsVal.num 7 ≠ JsVal.null ∧ alGet "k" CacheManager.init.store = none ∧
     500 - 0 ≤ 1000) ∧
    ((CacheManager.init.getOrSet "k" (Except.ok (JsVal.num 7)) 1000 0).2.1
       = Except.ok (JsVal.num 7) ∧
     (CacheManager.init.getOrSet "k" (Except.ok (JsVal.num 7)) 1000 0).2.2 = true ∧
     ((CacheManager.init.getOrSet "k" (Except.ok (JsVal.num 7)) 1000 0).1.getOrSet
         "k" (Except.error JsError.typeError) 1000 500).2.1
       = Except.ok (JsVal.num 7) ∧
     ((CacheManager.init.getOrSet "k" (Except.ok (JsVal.num 7)) 1000 0).1.getOrSet
         "k" (Except.error JsError.typeError) 1000 500).2.2 = false) :=
  ⟨⟨by decide, by decide, by decide⟩,
   getOrCompute_dedup CacheManager.init "k" (JsVal.num 7)
     (Except.error JsError.typeError) 1000 0 500 (by decide) (by decide) (by decide)⟩

/-- C5 counterexample: the claim says the cache store is unchanged when the
compute function fails. On a cache whose store holds an expired entry for
the key (entry created at 0 with ttl 100, call at time 200), getOrSet with a
failing compute function propagates the error, yet the store after the call
differs from the store before: the initial lookup evicted the expired
entry. -/
theorem getOrCompute_error_cex :
    (CacheManager.getOrSet
       { store := [("k", { value := JsVal.num 1, createdAt := 0, ttl := 100,
                           hits := 0, lastAccessed := 0 })],
         metrics := { hits := 0, misses := 0, sets := 0, deletes := 0 } }
       "k" (Except.error JsError.typeError) 1000 200).2.2 = true ∧
    (CacheManager.getOrSet
       { store := [("k", { value := JsVal.num 1, createdAt := 0, ttl := 100,
                           hits := 0, lastAccessed := 0 })],
         metrics := { hits := 0, misses := 0, sets := 0, deletes := 0 } }
       "k" (Except.error JsError.typeError) 1000 200).2.1
      = Except.error JsError.typeError ∧
    (CacheManager.getOrSet
       { store := [("k", { value := JsVal.num 1, createdAt := 0, ttl := 100,
                           hits := 0, lastAccessed := 0 })],
         metrics := { hits := 0, misses := 0, sets := 0, deletes := 0 } }
       "k" (Except.error JsError.typeError) 1000 200).1.store
      ≠ [("k", { value := JsVal.num 1, createdAt := 0, ttl := 100,
                 hits := 0, lastAccessed := 0 })] := by
  refine ⟨by decide, by rfl, by decide⟩

/-- C5 amended: if the compute function passed to getOrSet fails and is
invoked, the failure propagates to the caller and nothing is cached for that
key: any entry present for the key after the call was already present before
with the same value, ttl and creation time, so no poisoned entry is created.
(The store is not literally unchanged: the initial lookup evicts an
already-expired entry for the key, and bumps hit metadata when the stored
value is null.) -/
theorem getOrCompute_error_no_poison (c : CacheManager) (k : String)
    (err : JsError) (ttl now : Nat)
    (hinv : (c.getOrSet k (Except.error err) ttl now).2.2 = true) :
    (c.getOrSet k (Except.error err) ttl now).2.1 = Except.error err ∧
    ∀ e', alGet k (c.getOrSet k (Except.error err) ttl now).1.store = some e' →
      ∃ e, alGet k c.store = some e ∧ e'.value = e.value ∧ e'.ttl = e.ttl ∧
        e'.createdAt = e.createdAt := by
  unfold CacheManager.getOrSet at hinv ⊢
  unfold CacheManager.get at hinv ⊢
  cases hal : alGet k c.store with
  | none => simp [hal] at hinv ⊢
  | some e =>
      cases hex : e.isExpired now with
      | true => simp [hal, hex] at hinv ⊢
      | false =>
          cases hnull : e.value with
          | null =>
              simp [hal, hex, hnull] at hinv ⊢
              simp [CacheEntry.recordHit, hnull]
          | num m => simp [hal, hex, hnull] at hinv
          | str s => simp [hal, hex, hnull] at hinv
          | bool b => simp [hal, hex, hnull] at hinv
          | circularObj => simp [hal, hex, hnull] at hinv

/-- C5 witness: the propagation conclusion at a concrete input (absent key,
failing compute function). -/
theorem getOrCompute_error_no_poison_witness :
    (CacheManager.init.getOrSet "k" (Except.error JsError.typeError) 1000 5).2.2
      = true ∧
    (CacheManager.init.getOrSet "k" (Except.error JsError.typeError) 1000 5).2.1
      = Except.error JsError.typeError :=
  ⟨by decide,
   (getOrCompute_error_no_poison CacheManager.init "k" JsError.typeError 1000 5
     (by decide)).1⟩

/-- C6: the claim (and the spec) require getStats never to throw — a
serialization failure during the memory estimate must be caught locally and
a placeholder size reported. The code has no try/catch in
estimateMemoryUsage or getStats, so on a cache holding one entry whose value
JSON.stringify cannot serialize (a circular object), getStats propagates the
TypeError to its caller instead of returning stats. -/
theorem getStats_throws_on_unserializable_value :
    (CacheManager.getStats
       { store := [("k", { value := JsVal.circularObj, createdAt := 0,
                           ttl := 1000, hits := 0, lastAccessed := 0 })],
         metrics := { hits := 0, misses := 0, sets := 1, deletes := 0 } })
      = Except.error JsError.typeError := by
  rfl

/-- C9: a cached null value is indistinguishable from a miss at the public
interface. The value component of get is null when the key is absent, when
the entry is expired, and when the stored value is itself null; getOrSet
treats a null return from get as a miss and invokes its compute function;
hence with a compute function returning null, two successive getOrSet calls
(at any two times) both invoke it — caching null values is ineffective. -/
theorem cached_null_indistinguishable_from_miss :
    (∀ (c : CacheManager) (k : String) (now : Nat),
       alGet k c.store = none → (c.get k now).2 = JsVal.null) ∧
    (∀ (c : CacheManager) (k : String) (now : Nat) (e : CacheEntry),
       alGet k c.store = some e → e.isExpired now = true →
       (c.get k now).2 = JsVal.null) ∧
    (∀ (c : CacheManager) (k : String) (now : Nat) (e : CacheEntry),
       alGet k c.store = some e → e.isExpired now = false →
       e.value = JsVal.null → (c.get k now).2 = JsVal.null) ∧
    (∀ (c : CacheManager) (k : String) (r : Except JsError JsVal) (ttl now : Nat),
       (c.get k now).2 = JsVal.null → (c.getOrSet k r ttl now).2.2 = true) ∧
    (∀ (c : CacheManager) (k : String) (ttl n1 n2 : Nat),
       (c.get k n1).2 = JsVal.null →
       (c.getOrSet k (Except.ok JsVal.null) ttl n1).2.2 = true ∧
       ((c.getOrSet k (Except.ok JsVal.null) ttl n1).1.getOrSet k
           (Except.ok JsVal.null) ttl n2).2.2 = true) := by
  have hget : ∀ (c : CacheManager) (k : String) (now : Nat),
      alGet k c.store = none → (c.get k now).2 = JsVal.null := by
    intro c k now h
    simp [CacheManager.get, h]
  have hgetExp : ∀ (c : CacheManager) (k : String) (now : Nat) (e : CacheEntry),
      alGet k c.store = some e → e.isExpired now = true →
      (c.get k now).2 = JsVal.null := by
    intro c k now e h hex
    simp [CacheManager.get, h, hex]
  have hgetNull : ∀ (c : CacheManager) (k : String) (now : Nat) (e : CacheEntry),
      alGet k c.store = some e → e.isExpired now = false →
      e.value = JsVal.null → (c.get k now).2 = JsVal.null := by
    intro c k now e h hex hv
    simp [CacheManager.get, h, hex, hv]
  have hmiss : ∀ (c : CacheManager) (k : String) (r : Except JsError JsVal)
      (ttl now : Nat),
      (c.get k now).2 = JsVal.null → (c.getOrSet k r ttl now).2.2 = true := by
    intro c k r ttl now h
    cases r <;> simp [CacheManager.getOrSet, h]
  refine ⟨hget, hgetExp, hgetNull, hmiss, ?_⟩
  intro c k ttl n1 n2 h
  refine ⟨hmiss c k (Except.ok JsVal.null) ttl n1 h, ?_⟩
  apply hmiss
  have hstate : (c.getOrSet k (Except.ok JsVal.null) ttl n1).1
      = (c.get k n1).1.set k JsVal.null ttl n1 := by
    simp [CacheManager.getOrSet, h]
  rw [hstate]
  have halg : alGet k ((c.get k n1).1.set k JsVal.null ttl n1).store
      = some (CacheEntry.make JsVal.null ttl n1) := by
    simp [CacheManager.set]
  cases hex : (CacheEntry.make JsVal.null ttl n1).isExpired n2 with
  | true => exact hgetExp _ k n2 _ halg hex
  | false => exact hgetNull _ k n2 _ halg hex rfl

/-- C9 witness: on a cache whose sole entry stores null (fresh, ttl 1000),
get returns the null sentinel and back-to-back getOrSet calls with a
null-returning compute function invoke it both times. -/
theorem cached_null_indistinguishable_witness :
    (CacheManager.get
       { store := [("k", { value := JsVal.null, createdAt := 0, ttl := 1000,
                           hits := 0, lastAccessed := 0 })],
         metrics := { hits := 0, misses := 0, sets := 1, deletes := 0 } }
       "k" 5).2 = JsVal.null ∧
    (CacheManager.getOrSet
       { store := [("k", { value := JsVal.null, createdAt := 0, ttl := 1000,
                           hits := 0, lastAccessed := 0 })],
         metrics := { hits := 0, misses := 0, sets := 1, deletes := 0 } }
       "k" (Except.ok JsVal.null) 1000 5).2.2 = true ∧
    ((CacheManager.getOrSet
        { store := [("k", { value := JsVal.null, createdAt := 0, ttl := 1000,
                            hits := 0, lastAccessed := 0 })],
          metrics := { hits := 0, misses := 0, sets := 1, deletes := 0 } }
        "k" (Except.ok JsVal.null) 1000 5).1.getOrSet "k"
        (Except.ok JsVal.null) 1000 6).2.2 = true := by
  refine ⟨?_, ?_, ?_⟩
  · exact cached_null_indistinguishable_from_miss.2.2.1 _ "k" 5 _ (by rfl)
      (by decide) (by rfl)
  · exact (cached_null_indistinguishable_from_miss.2.2.2.2 _ "k" 1000 5 6
      (by decide)).1
  · exact (cached_null_indistinguishable_from_miss.2.2.2.2 _ "k" 1000 5 6
      (by decide)).2

/-- C10: for every CacheEntry and every time, the per-entry getStats method
throws a ReferenceError: its object literal reads the bare identifier hits
(shorthand property) instead of this.hits, and no enclosing scope binds
hits, so no code path returns normally. -/
theorem entry_getStats_always_referenceError (e : CacheEntry) (now : Nat) :
    e.getStatsJs now = Except.error JsError.referenceError := by
  simp [CacheEntry.getStatsJs, cacheModuleScope]

/-- C3: cache TTL expiry boundary. For all ttl > 0, `get(key)` immediately
after `set(key, v, ttl)` returns v; the expiry check uses strict `>`, so the
entry is still returned at age exactly ttl; a get at age ttl + 1 returns the
null (absent) sentinel, deletes the stale entry from the store, and
increments the miss counter. -/
theorem cache_ttl_expiry_boundary (c : CacheManager) (k : String) (v : JsVal)
    (ttl now : Nat) (h : 0 < ttl) :
    ((c.set k v ttl now).get k now).2 = v ∧
    ((c.set k v ttl now).get k (now + ttl)).2 = v ∧
    ((c.set k v ttl now).get k (now + ttl + 1)).2 = JsVal.null ∧
    alGet k ((c.set k v ttl now).get k (now + ttl + 1)).1.store = none ∧
    ((c.set k v ttl now).get k (now + ttl + 1)).1.metrics.misses
      = c.metrics.misses + 1 := by
  have hfresh : (CacheEntry.make v ttl now).isExpired now = false := by
    simp [CacheEntry.make, CacheEntry.isExpired]
  have hboundary : (CacheEntry.make v ttl now).isExpired (now + ttl) = false := by
    simp [CacheEntry.make, CacheEntry.isExpired]
  have hstale : (CacheEntry.make v ttl now).isExpired (now + ttl + 1) = true := by
    simp [CacheEntry.make, CacheEntry.isExpired]
    omega
  have hval : (CacheEntry.make v ttl now).value = v := rfl
  refine ⟨?_, ?_, ?_, ?_, ?_⟩ <;>
    simp [CacheManager.get, CacheManager.set, hfresh, hboundary, hstale, hval,
      alGet_alSet_self, alGet_alDelete_self]

/-- C3 witness: the boundary behavior at a concrete input. -/
theorem cache_ttl_expiry_boundary_witness :
    (0 : Nat) < 100 ∧
    (((CacheManager.init.set "k" (JsVal.num 7) 100 50).get "k" 50).2 = JsVal.num 7 ∧
     ((CacheManager.init.set "k" (JsVal.num 7) 100 50).get "k" (50 + 100)).2 = JsVal.num 7 ∧
     ((CacheManager.init.set "k" (JsVal.num 7) 100 50).get "k" (50 + 100 + 1)).2 = JsVal.null ∧
     alGet "k" ((CacheManager.init.set "k" (JsVal.num 7) 100 50).get "k" (50 + 100 + 1)).1.store = none ∧
     ((CacheManager.init.set "k" (JsVal.num 7) 100 50).get "k" (50 + 100 + 1)).1.metrics.misses
       = CacheManager.init.metrics.misses + 1) :=
  ⟨by decide,
   cache_ttl_expiry_boundary CacheManager.init "k" (JsVal.num 7) 100 50 (by decide)⟩

/-- C2: cooldown escalation. With baseCooldownMs = 5000 and escalation step
1000, starting from a fresh manager: the first check installs
expiresAt = n1 + 5000 with violationCount 0 and allows; a second check at
n2 before expiry is denied with violationCount 1 (incremented on the
existing record) and retryAfterSeconds = ceil((expiresAt - n2)/1000); a
third check at n3 once the cooldown has naturally elapsed is allowed and
installs a new cooldown of 5000 + 1 * 1000 = 6000 ms with violationCount
reset to 0. -/
theorem cooldown_escalation (u cmd : String) (n1 n2 n3 : Nat)
    (h2 : n2 < n1 + 5000) (h3 : n1 + 5000 ≤ n3) :
    CommandCooldownManager.init.checkCooldown u cmd 5000 n1
      = ({ cooldowns := [(u, [(cmd, { expiresAt := n1 + 5000, violations := 0 })])] },
         { allowed := true, retryAfter := none, violations := none }) ∧
    CommandCooldownManager.checkCooldown
        { cooldowns := [(u, [(cmd, { expiresAt := n1 + 5000, violations := 0 })])] }
        u cmd 5000 n2
      = ({ cooldowns := [(u, [(cmd, { expiresAt := n1 + 5000, violations := 1 })])] },
         { allowed := false, retryAfter := some (ceilDiv (n1 + 5000 - n2) 1000),
           violations := some 1 }) ∧
    CommandCooldownManager.checkCooldown
        { cooldowns := [(u, [(cmd, { expiresAt := n1 + 5000, violations := 1 })])] }
        u cmd 5000 n3
      = ({ cooldowns := [(u, [(cmd, { expiresAt := n3 + 6000, violations := 0 })])] },
         { allowed := true, retryAfter := none, violations := none }) := by
  have hnot : ¬ (n1 + 5000 ≤ n2) := by omega
  refine ⟨?_, ?_, ?_⟩ <;>
    simp [CommandCooldownManager.checkCooldown, CommandCooldownManager.init,
      CommandCooldownManager.baseEscalation, alGet, alSet, hnot, h3]

/-- C2 witness: the escalation scenario at concrete times 1000, 3000, 7000. -/
theorem cooldown_escalation_witness :
    (3000 < 1000 + 5000 ∧ 1000 + 5000 ≤ 7000) ∧
    (CommandCooldownManager.init.checkCooldown "u" "ping" 5000 1000
       = ({ cooldowns := [("u", [("ping", { expiresAt := 1000 + 5000, violations := 0 })])] },
          { allowed := true, retryAfter := none, violations := none }) ∧
     CommandCooldownManager.checkCooldown
         { cooldowns := [("u", [("ping", { expiresAt := 1000 + 5000, violations := 0 })])] }
         "u" "ping" 5000 3000
       = ({ cooldowns := [("u", [("ping", { expiresAt := 1000 + 5000, violations := 1 })])] },
          { allowed := false, retryAfter := some (ceilDiv (1000 + 5000 - 3000) 1000),
            violations := some 1 }) ∧
     CommandCooldownManager.checkCooldown
         { cooldowns := [("u", [("ping", { expiresAt := 1000 + 5000, violations := 1 })])] }
         "u" "ping" 5000 7000
       = ({ cooldowns := [("u", [("ping", { expiresAt := 7000 + 6000, violations := 0 })])] },
          { allowed := true, retryAfter := none, violations := none })) :=
  ⟨⟨by decide, by decide⟩,
   cooldown_escalation "u" "ping" 1000 3000 7000 (by decide) (by decide)⟩

/-- C1 counterexample: the claim says the fifth checkSpam call in quick
succession (threshold 5, window 5000 ms) returns isSpamming = true. On the
code, the count is checked before appending, so the fifth call sees only the
4 previously admitted timestamps, 4 < 5, and returns isSpamming = false. -/
theorem spam_fifth_call_cex :
    ((((((AntiSpamManager.init.checkSpam "u" 0).1.checkSpam "u" 1).1.checkSpam
        "u" 2).1.checkSpam "u" 3).1.checkSpam "u" 4).2.isSpamming = false) := by
  decide

/-- C1 amended: with threshold 5 and window 5000 ms, for a user with no prior
history, six calls in quick succession return isSpamming = false for the
first five and isSpamming = true (with the suggested 30000 ms mute) on the
sixth; the flagged check's timestamp is not appended (the stored history
still holds the five admitted timestamps); after waiting past the window the
next call returns isSpamming = false. -/
theorem spam_window_sixth_flagged (u : String) (t : Nat) :
    AntiSpamManager.init.checkSpam u t
      = ({ messageHistory := [(u, [t])] },
         { isSpamming := false, muteDuration := none }) ∧
    AntiSpamManager.checkSpam { messageHistory := [(u, [t])] } u t
      = ({ messageHistory := [(u, [t, t])] },
         { isSpamming := false, muteDuration := none }) ∧
    AntiSpamManager.checkSpam { messageHistory := [(u, [t, t])] } u t
      = ({ messageHistory := [(u, [t, t, t])] },
         { isSpamming := false, muteDuration := none }) ∧
    AntiSpamManager.checkSpam { messageHistory := [(u, [t, t, t])] } u t
      = ({ messageHistory := [(u, [t, t, t, t])] },
         { isSpamming := false, muteDuration := none }) ∧
    AntiSpamManager.checkSpam { messageHistory := [(u, [t, t, t, t])] } u t
      = ({ messageHistory := [(u, [t, t, t, t, t])] },
         { isSpamming := false, muteDuration := none }) ∧
    AntiSpamManager.checkSpam { messageHistory := [(u, [t, t, t, t, t])] } u t
      = ({ messageHistory := [(u, [t, t, t, t, t])] },
         { isSpamming := true, muteDuration := some 30000 }) ∧
    AntiSpamManager.checkSpam { messageHistory := [(u, [t, t, t, t, t])] } u
        (t + 5000)
      = ({ messageHistory := [(u, [t + 5000])] },
         { isSpamming := false, muteDuration := none }) := by
  refine ⟨?_, ?_, ?_, ?_, ?_, ?_, ?_⟩ <;>
    simp [AntiSpamManager.checkSpam, AntiSpamManager.init,
      AntiSpamManager.timeWindow, AntiSpamManager.messageThreshold,
      AntiSpamManager.autoMute, alGet, alSet, Nat.sub_self,
      Nat.add_sub_cancel_left]

/-- C7: minimum-interval farming guard. For every user, the first
canPerformAction call (at a positive time n1 — Date.now() is never 0) is
allowed and records n1; a second call at n2 with n2 - n1 < 30000 is denied
with retryAfterSeconds = ceil((30000 - (n2 - n1))/1000) > 0 and leaves the
record untouched; a call at n3 with n3 - n1 ≥ 30000 is allowed and
overwrites the record with n3. -/
theorem farming_guard (u : String) (n1 n2 n3 : Nat) (h1 : 0 < n1)
    (h2 : n2 - n1 < 30000) (h3 : 30000 ≤ n3 - n1) :
    LeaderboardFarmingPrevention.init.canPerformAction u n1
      = ({ lastPointsUpdate := [(u, n1)] }, { allowed := true, retryAfter := none }) ∧
    LeaderboardFarmingPrevention.canPerformAction { lastPointsUpdate := [(u, n1)] } u n2
      = ({ lastPointsUpdate := [(u, n1)] },
         { allowed := false,
           retryAfter := some (ceilDiv (30000 - (n2 - n1)) 1000) }) ∧
    0 < ceilDiv (30000 - (n2 - n1)) 1000 ∧
    LeaderboardFarmingPrevention.canPerformAction { lastPointsUpdate := [(u, n1)] } u n3
      = ({ lastPointsUpdate := [(u, n3)] }, { allowed := true, retryAfter := none }) := by
  have h1' : ¬ (n1 = 0) := by omega
  have h3' : ¬ (n3 - n1 < 30000) := by omega
  refine ⟨?_, ?_, ?_, ?_⟩ <;>
    simp [LeaderboardFarmingPrevention.canPerformAction,
      LeaderboardFarmingPrevention.init, LeaderboardFarmingPrevention.minInterval,
      alGet, alSet, h1', h2, h3', ceilDiv]
  omega

/-- C7 witness: the guard at concrete times 1000, 2000, 40000. -/
theorem farming_guard_witness :
    ((0 : Nat) < 1000 ∧ 2000 - 1000 < 30000 ∧ 30000 ≤ 40000 - 1000) ∧
    (LeaderboardFarmingPrevention.init.canPerformAction "u" 1000
       = ({ lastPointsUpdate := [("u", 1000)] },
          { allowed := true, retryAfter := none }) ∧
     LeaderboardFarmingPrevention.canPerformAction
         { lastPointsUpdate := [("u", 1000)] } "u" 2000
       = ({ lastPointsUpdate := [("u", 1000)] },
          { allowed := false,
            retryAfter := some (ceilDiv (30000 - (2000 - 1000)) 1000) }) ∧
     0 < ceilDiv (30000 - (2000 - 1000)) 1000 ∧
     LeaderboardFarmingPrevention.canPerformAction
         { lastPointsUpdate := [("u", 1000)] } "u" 40000
       = ({ lastPointsUpdate := [("u", 40000)] },
          { allowed := true, retryAfter := none })) :=
  ⟨⟨by decide, by decide, by decide⟩,
   farming_guard "u" 1000 2000 40000 (by decide) (by decide) (by decide)⟩

/-- C8: delete idempotence. `delete(key)` returns whether an entry existed
(false on an absent key; the model is a total function, so no path throws),
removes the entry, and increments the `deletes` counter exactly when an entry
existed; a second delete of the same key returns false and leaves the
counter unchanged. -/
theorem cache_delete_idempotent (c : CacheManager) (k : String) :
    (c.delete k).2 = alHas k c.store ∧
    alGet k (c.delete k).1.store = none ∧
    (c.delete k).1.metrics.deletes
      = c.metrics.deletes + (if alHas k c.store then 1 else 0) ∧
    ((c.delete k).1.delete k).2 = false ∧
    ((c.delete k).1.delete k).1.metrics.deletes = (c.delete k).1.metrics.deletes := by
  have h2 : alGet k (alDelete k c.store) = none := alGet_alDelete_self k c.store
  have hald : alHas k (alDelete k c.store) = false := by simp [alHas, h2]
  cases hh : alHas k c.store <;>
    simp [CacheManager.delete, hh, hald, h2]
